import Mathlib

/-!
Shallow embedding of the repository `src/src/syn_expr_json.rs` (a structured
JSON serializer for the external parser expression tree) together with the
CLI wrapper `src/src/bin/cli.rs`.

Modelling conventions:
* `serde_json::Value` becomes the inductive `Value` below (null, bool,
  number, string, ordered array, ordered-key object).
* Sub-trees that the Rust code renders only through
  `to_token_stream().to_string()` (types, patterns, blocks, attribute
  bodies, generic argument lists, token streams) are modelled as the
  `String` holding that rendered token text; the rendering is then the
  identity, which is faithful because the converter only ever passes the
  text through.
* `syn` data carried by the nodes (decoded literal values, base-10 digit
  text of numeric literals, identifier texts) is stored directly in the
  constructors, mirroring the fields the Rust code reads.
* `syn::Expr`, `syn::Lit`, `syn::BinOp` and `syn::UnOp` are
  `#[non_exhaustive]`; the wildcard fallback arm of each Rust `match` is
  modelled by an extra `Unknown` constructor carrying the token text that
  `to_token_stream().to_string()` would produce for such a node.
-/

namespace SynExprJson

/-- The canonical value model (`serde_json::Value`): null, booleans, numbers,
strings, ordered arrays and ordered-key objects.  All numbers emitted by the
converter are unsigned machine integers, so `Nat` carries them. -/
inductive Value where
  | null : Value
  | bool (b : Bool) : Value
  | num (n : Nat) : Value
  | str (s : String) : Value
  | arr (elems : List Value) : Value
  | obj (fields : List (String × Value)) : Value

/-- Key lookup in an object value; `none` on non-objects and missing keys. -/
def Value.lookup : Value → String → Option Value
  | .obj fields, key => List.lookup key fields
  | _, _ => none

/-- The ordered key list of an object value (empty for non-objects). -/
def Value.objKeys : Value → List String
  | .obj fields => fields.map Prod.fst
  | _ => []

/-- Whether a value is an object. -/
def Value.isObj : Value → Bool
  | .obj _ => true
  | _ => false

/-- Whether a value is a string. -/
def Value.isStr : Value → Bool
  | .str _ => true
  | _ => false

/-- `syn::Lit`.  `Str`, `CStr` carry the decoded text (`value()`,
`to_string_lossy()`), `ByteStr` the decoded bytes, `Byte` the byte value,
`Char` the decoded character, `Int`/`Float` the base-10 digit text that
`base10_digits()` returns, each with its suffix text (empty when the literal
has no suffix).  `Unknown` models the wildcard arm for future literal kinds,
carrying the token text. -/
inductive Lit where
  | Str (value : String) (suffix : String)
  | ByteStr (value : List Nat) (suffix : String)
  | CStr (value : String) (suffix : String)
  | Byte (value : Nat) (suffix : String)
  | Char (value : Char) (suffix : String)
  | Int (digits : String) (suffix : String)
  | Float (digits : String) (suffix : String)
  | Bool (value : Bool)
  | Verbatim (tokens : String)
  | Unknown (tokens : String)
deriving DecidableEq

/-- `syn::BinOp`; `Unknown` models the wildcard arm for future operators,
carrying the verbatim source-token text. -/
inductive BinOp where
  | Add | Sub | Mul | Div | Rem
  | And | Or
  | BitXor | BitAnd | BitOr | Shl | Shr
  | Eq | Lt | Le | Ne | Ge | Gt
  | AddAssign | SubAssign | MulAssign | DivAssign | RemAssign
  | BitXorAssign | BitAndAssign | BitOrAssign | ShlAssign | ShrAssign
  | Unknown (tokens : String)
deriving DecidableEq

/-- `syn::UnOp`; `Unknown` models the wildcard arm for future operators. -/
inductive UnOp where
  | Deref | Not | Neg
  | Unknown (tokens : String)
deriving DecidableEq

/-- `syn::Lifetime`: the identifier text without the leading apostrophe
(`syn` stores the apostrophe as separate punctuation). -/
structure Lifetime where
  ident : String
deriving DecidableEq

/-- The source token text of a lifetime: an apostrophe (character 39)
followed by the identifier, as `ToTokens` for `syn::Lifetime` renders it. -/
def lifetime_tokens (l : Lifetime) : String :=
  String.singleton (Char.ofNat 39) ++ l.ident

/-- `syn::Label`: a lifetime followed by a colon. -/
structure Label where
  name : Lifetime
deriving DecidableEq

/-- `syn::Member`. -/
inductive Member where
  | Named (ident : String)
  | Unnamed (index : Nat)
deriving DecidableEq

/-- `syn::RangeLimits`. -/
inductive RangeLimits where
  | HalfOpen
  | Closed
deriving DecidableEq

/-- `lit_to_json`: convert a literal to a Value (src/src/syn_expr_json.rs,
lines 96-148). -/
def lit_to_json : Lit → Value
  | .Str value suffix => .obj [("kind", .str "Str"),
      ("value", .str value), ("suffix", .str suffix)]
  | .ByteStr value suffix => .obj [("kind", .str "ByteStr"),
      ("value", .arr (value.map Value.num)), ("suffix", .str suffix)]
  | .CStr value suffix => .obj [("kind", .str "CStr"),
      ("value", .str value), ("suffix", .str suffix)]
  | .Byte value suffix => .obj [("kind", .str "Byte"),
      ("value", .num value), ("suffix", .str suffix)]
  | .Char value suffix => .obj [("kind", .str "Char"),
      ("value", .str value.toString), ("suffix", .str suffix)]
  | .Int digits suffix => .obj [("kind", .str "Int"),
      ("value", .str digits), ("suffix", .str suffix)]
  | .Float digits suffix => .obj [("kind", .str "Float"),
      ("value", .str digits), ("suffix", .str suffix)]
  | .Bool value => .obj [("kind", .str "Bool"), ("value", .bool value)]
  | .Verbatim tokens => .obj [("kind", .str "Verbatim"), ("tokens", .str tokens)]
  | .Unknown tokens => .obj [("kind", .str "Unknown"), ("tokens", .str tokens)]

/-- `label_to_string`: the bare identifier of the label lifetime. -/
def label_to_string (label : Label) : String :=
  label.name.ident

/-- `opt_label_to_json`. -/
def opt_label_to_json : Option Label → Value
  | some l => .str (label_to_string l)
  | none => .null

/-- `member_to_json`. -/
def member_to_json : Member → Value
  | .Named ident => .obj [("kind", .str "Named"), ("name", .str ident)]
  | .Unnamed index => .obj [("kind", .str "Unnamed"), ("index", .num index)]

/-- `binop_to_json` (src/src/syn_expr_json.rs, lines 178-213). -/
def binop_to_json : BinOp → Value
  | .Add => .str "+"
  | .Sub => .str "-"
  | .Mul => .str "*"
  | .Div => .str "/"
  | .Rem => .str "%"
  | .And => .str "&&"
  | .Or => .str "||"
  | .BitXor => .str "^"
  | .BitAnd => .str "&"
  | .BitOr => .str "|"
  | .Shl => .str "<<"
  | .Shr => .str ">>"
  | .Eq => .str "=="
  | .Lt => .str "<"
  | .Le => .str "<="
  | .Ne => .str "!="
  | .Ge => .str ">="
  | .Gt => .str ">"
  | .AddAssign => .str "+="
  | .SubAssign => .str "-="
  | .MulAssign => .str "*="
  | .DivAssign => .str "/="
  | .RemAssign => .str "%="
  | .BitXorAssign => .str "^="
  | .BitAndAssign => .str "&="
  | .BitOrAssign => .str "|="
  | .ShlAssign => .str "<<="
  | .ShrAssign => .str ">>="
  | .Unknown tokens => .str tokens

/-- `unop_to_json` (src/src/syn_expr_json.rs, lines 216-226). -/
def unop_to_json : UnOp → Value
  | .Deref => .str "*"
  | .Not => .str "!"
  | .Neg => .str "-"
  | .Unknown tokens => .str tokens

/-- `attrs_to_json`: each attribute rendered to its token text. -/
def attrs_to_json (attrs : List String) : Value :=
  .arr (attrs.map Value.str)

/-- `range_limits_to_json`. -/
def range_limits_to_json : RangeLimits → Value
  | .HalfOpen => .str "HalfOpen"
  | .Closed => .str "Closed"

/-- `opt.as_ref().map(|t| ...to_string())` over an optional token text
(turbofish, qself type, closure lifetimes): `None` serializes to null. -/
def opt_str_to_json : Option String → Value
  | some s => .str s
  | none => .null

/-- `label.as_ref().map(|l| l.ident.to_string())` on Break/Continue:
`None` serializes to null. -/
def opt_lifetime_to_json : Option Lifetime → Value
  | some l => .str l.ident
  | none => .null

mutual

/-- `syn::Expr`: the expression node tree.  Constructor fields mirror the
fields the converter reads from the corresponding `syn::Expr*` structs;
sub-trees rendered only as token text are carried as that text.  `Unknown`
models any future variant of the `#[non_exhaustive]` enum, carrying its
token text. -/
inductive Expr where
  | Array (attrs : List String) (elems : List Expr)
  | Assign (attrs : List String) (left : Expr) (right : Expr)
  | Async (attrs : List String) (capture : Bool) (block : String)
  | Await (attrs : List String) (base : Expr)
  | Binary (attrs : List String) (left : Expr) (op : BinOp) (right : Expr)
  | Block (attrs : List String) (label : Option Label) (block : String)
  | Break (attrs : List String) (label : Option Lifetime) (expr : Option Expr)
  | Call (attrs : List String) (func : Expr) (args : List Expr)
  | Cast (attrs : List String) (expr : Expr) (ty : String)
  | Closure (attrs : List String) (lifetimes : Option String)
      (constness : Bool) (movability : Bool) (asyncness : Bool)
      (capture : Bool) (inputs : List String) (output : String) (body : Expr)
  | Const (attrs : List String) (block : String)
  | Continue (attrs : List String) (label : Option Lifetime)
  | Field (attrs : List String) (base : Expr) (member : Member)
  | ForLoop (attrs : List String) (label : Option Label) (pat : String)
      (expr : Expr) (body : String)
  | Group (attrs : List String) (expr : Expr)
  | If (attrs : List String) (cond : Expr) (thenBranch : String)
      (elseBranch : Option Expr)
  | Index (attrs : List String) (expr : Expr) (index : Expr)
  | Infer (attrs : List String)
  | Let (attrs : List String) (pat : String) (expr : Expr)
  | Lit (attrs : List String) (lit : Lit)
  | Loop (attrs : List String) (label : Option Label) (body : String)
  | Macro (attrs : List String) (mac : String)
  | Match (attrs : List String) (expr : Expr) (arms : List Arm)
  | MethodCall (attrs : List String) (receiver : Expr) (method : String)
      (turbofish : Option String) (args : List Expr)
  | Paren (attrs : List String) (expr : Expr)
  | Path (attrs : List String) (qself : Option String) (path : String)
  | Range (attrs : List String) (start : Option Expr) (limits : RangeLimits)
      (stop : Option Expr)
  | RawAddr (attrs : List String) (mutability : Bool) (expr : Expr)
  | Reference (attrs : List String) (mutability : Bool) (expr : Expr)
  | Repeat (attrs : List String) (expr : Expr) (len : Expr)
  | Return (attrs : List String) (expr : Option Expr)
  | Struct (attrs : List String) (qself : Option String) (path : String)
      (fields : List FieldValue) (dot2 : Bool) (rest : Option Expr)
  | Try (attrs : List String) (expr : Expr)
  | TryBlock (attrs : List String) (block : String)
  | Tuple (attrs : List String) (elems : List Expr)
  | Unary (attrs : List String) (op : UnOp) (expr : Expr)
  | Unsafe (attrs : List String) (block : String)
  | Verbatim (tokens : String)
  | While (attrs : List String) (label : Option Label) (cond : Expr)
      (body : String)
  | Yield (attrs : List String) (expr : Option Expr)
  | Unknown (tokens : String)

/-- `syn::Arm`: one match arm (pattern text, optional guard, body). -/
inductive Arm where
  | mk (attrs : List String) (pat : String) (guard : Option Expr) (body : Expr)

/-- `syn::FieldValue`: one field of a struct literal. -/
inductive FieldValue where
  | mk (attrs : List String) (member : Member) (expr : Expr)

end

mutual

/-- `expr_to_json` (src/src/syn_expr_json.rs, lines 23-76): the dispatcher.
Each arm inlines the body of the corresponding per-variant converter
(`array_to_json` .. `yield_to_json`, lines 265-616); optional sub-expressions
go through `opt_expr_to_json`, matching `e.as_ref().map(expr_to_json)` with
`None` serialized as null. -/
def expr_to_json : Expr → Value
  | .Array attrs elems => .obj [("kind", .str "Array"),
      ("attrs", attrs_to_json attrs),
      ("elems", .arr (exprs_to_json elems))]
  | .Assign attrs left right => .obj [("kind", .str "Assign"),
      ("attrs", attrs_to_json attrs),
      ("left", expr_to_json left),
      ("right", expr_to_json right)]
  | .Async attrs capture block => .obj [("kind", .str "Async"),
      ("attrs", attrs_to_json attrs),
      ("capture", .bool capture),
      ("block", .str block)]
  | .Await attrs base => .obj [("kind", .str "Await"),
      ("attrs", attrs_to_json attrs),
      ("base", expr_to_json base)]
  | .Binary attrs left op right => .obj [("kind", .str "Binary"),
      ("attrs", attrs_to_json attrs),
      ("left", expr_to_json left),
      ("op", binop_to_json op),
      ("right", expr_to_json right)]
  | .Block attrs label block => .obj [("kind", .str "Block"),
      ("attrs", attrs_to_json attrs),
      ("label", opt_label_to_json label),
      ("block", .str block)]
  | .Break attrs label expr => .obj [("kind", .str "Break"),
      ("attrs", attrs_to_json attrs),
      ("label", opt_lifetime_to_json label),
      ("expr", opt_expr_to_json expr)]
  | .Call attrs func args => .obj [("kind", .str "Call"),
      ("attrs", attrs_to_json attrs),
      ("func", expr_to_json func),
      ("args", .arr (exprs_to_json args))]
  | .Cast attrs expr ty => .obj [("kind", .str "Cast"),
      ("attrs", attrs_to_json attrs),
      ("expr", expr_to_json expr),
      ("ty", .str ty)]
  | .Closure attrs lifetimes constness movability asyncness capture inputs output body =>
      .obj [("kind", .str "Closure"),
      ("attrs", attrs_to_json attrs),
      ("lifetimes", opt_str_to_json lifetimes),
      ("constness", .bool constness),
      ("movability", .bool movability),
      ("asyncness", .bool asyncness),
      ("capture", .bool capture),
      ("inputs", .arr (inputs.map Value.str)),
      ("output", .str output),
      ("body", expr_to_json body)]
  | .Const attrs block => .obj [("kind", .str "Const"),
      ("attrs", attrs_to_json attrs),
      ("block", .str block)]
  | .Continue attrs label => .obj [("kind", .str "Continue"),
      ("attrs", attrs_to_json attrs),
      ("label", opt_lifetime_to_json label)]
  | .Field attrs base member => .obj [("kind", .str "Field"),
      ("attrs", attrs_to_json attrs),
      ("base", expr_to_json base),
      ("member", member_to_json member)]
  | .ForLoop attrs label pat expr body => .obj [("kind", .str "ForLoop"),
      ("attrs", attrs_to_json attrs),
      ("label", opt_label_to_json label),
      ("pat", .str pat),
      ("expr", expr_to_json expr),
      ("body", .str body)]
  | .Group attrs expr => .obj [("kind", .str "Group"),
      ("attrs", attrs_to_json attrs),
      ("expr", expr_to_json expr)]
  | .If attrs cond thenBranch elseBranch => .obj [("kind", .str "If"),
      ("attrs", attrs_to_json attrs),
      ("cond", expr_to_json cond),
      ("then_branch", .str thenBranch),
      ("else_branch", opt_expr_to_json elseBranch)]
  | .Index attrs expr index => .obj [("kind", .str "Index"),
      ("attrs", attrs_to_json attrs),
      ("expr", expr_to_json expr),
      ("index", expr_to_json index)]
  | .Infer attrs => .obj [("kind", .str "Infer"),
      ("attrs", attrs_to_json attrs)]
  | .Let attrs pat expr => .obj [("kind", .str "Let"),
      ("attrs", attrs_to_json attrs),
      ("pat", .str pat),
      ("expr", expr_to_json expr)]
  | .Lit attrs lit => .obj [("kind", .str "Lit"),
      ("attrs", attrs_to_json attrs),
      ("lit", lit_to_json lit)]
  | .Loop attrs label body => .obj [("kind", .str "Loop"),
      ("attrs", attrs_to_json attrs),
      ("label", opt_label_to_json label),
      ("body", .str body)]
  | .Macro attrs mac => .obj [("kind", .str "Macro"),
      ("attrs", attrs_to_json attrs),
      ("mac", .str mac)]
  | .Match attrs expr arms => .obj [("kind", .str "Match"),
      ("attrs", attrs_to_json attrs),
      ("expr", expr_to_json expr),
      ("arms", .arr (arms_to_json arms))]
  | .MethodCall attrs receiver method turbofish args =>
      .obj [("kind", .str "MethodCall"),
      ("attrs", attrs_to_json attrs),
      ("receiver", expr_to_json receiver),
      ("method", .str method),
      ("turbofish", opt_str_to_json turbofish),
      ("args", .arr (exprs_to_json args))]
  | .Paren attrs expr => .obj [("kind", .str "Paren"),
      ("attrs", attrs_to_json attrs),
      ("expr", expr_to_json expr)]
  | .Path attrs qself path => .obj [("kind", .str "Path"),
      ("attrs", attrs_to_json attrs),
      ("qself", opt_str_to_json qself),
      ("path", .str path)]
  | .Range attrs start limits stop => .obj [("kind", .str "Range"),
      ("attrs", attrs_to_json attrs),
      ("start", opt_expr_to_json start),
      ("limits", range_limits_to_json limits),
      ("end", opt_expr_to_json stop)]
  | .RawAddr attrs mutability expr => .obj [("kind", .str "RawAddr"),
      ("attrs", attrs_to_json attrs),
      ("mutability", .bool mutability),
      ("expr", expr_to_json expr)]
  | .Reference attrs mutability expr => .obj [("kind", .str "Reference"),
      ("attrs", attrs_to_json attrs),
      ("mutability", .bool mutability),
      ("expr", expr_to_json expr)]
  | .Repeat attrs expr len => .obj [("kind", .str "Repeat"),
      ("attrs", attrs_to_json attrs),
      ("expr", expr_to_json expr),
      ("len", expr_to_json len)]
  | .Return attrs expr => .obj [("kind", .str "Return"),
      ("attrs", attrs_to_json attrs),
      ("expr", opt_expr_to_json expr)]
  | .Struct attrs qself path fields dot2 rest => .obj [("kind", .str "Struct"),
      ("attrs", attrs_to_json attrs),
      ("qself", opt_str_to_json qself),
      ("path", .str path),
      ("fields", .arr (field_values_to_json fields)),
      ("dot2_token", .bool dot2),
      ("rest", opt_expr_to_json rest)]
  | .Try attrs expr => .obj [("kind", .str "Try"),
      ("attrs", attrs_to_json attrs),
      ("expr", expr_to_json expr)]
  | .TryBlock attrs block => .obj [("kind", .str "TryBlock"),
      ("attrs", attrs_to_json attrs),
      ("block", .str block)]
  | .Tuple attrs elems => .obj [("kind", .str "Tuple"),
      ("attrs", attrs_to_json attrs),
      ("elems", .arr (exprs_to_json elems))]
  | .Unary attrs op expr => .obj [("kind", .str "Unary"),
      ("attrs", attrs_to_json attrs),
      ("op", unop_to_json op),
      ("expr", expr_to_json expr)]
  | .Unsafe attrs block => .obj [("kind", .str "Unsafe"),
      ("attrs", attrs_to_json attrs),
      ("block", .str block)]
  | .Verbatim tokens => .obj [("kind", .str "Verbatim"),
      ("tokens", .str tokens)]
  | .While attrs label cond body => .obj [("kind", .str "While"),
      ("attrs", attrs_to_json attrs),
      ("label", opt_label_to_json label),
      ("cond", expr_to_json cond),
      ("body", .str body)]
  | .Yield attrs expr => .obj [("kind", .str "Yield"),
      ("attrs", attrs_to_json attrs),
      ("expr", opt_expr_to_json expr)]
  | .Unknown tokens => .obj [("kind", .str "Unknown"),
      ("tokens", .str tokens)]

/-- `iter().map(expr_to_json).collect()` over an argument/element list. -/
def exprs_to_json : List Expr → List Value
  | [] => []
  | e :: es => expr_to_json e :: exprs_to_json es

/-- `opt.as_ref().map(|expr| expr_to_json(expr))`: `None` is null. -/
def opt_expr_to_json : Option Expr → Value
  | none => .null
  | some e => expr_to_json e

/-- `arm_to_json` (src/src/syn_expr_json.rs, lines 237-244). -/
def arm_to_json : Arm → Value
  | .mk attrs pat guard body => .obj [("attrs", attrs_to_json attrs),
      ("pat", .str pat),
      ("guard", opt_expr_to_json guard),
      ("body", expr_to_json body)]

/-- `iter().map(arm_to_json).collect()`. -/
def arms_to_json : List Arm → List Value
  | [] => []
  | a :: as_ => arm_to_json a :: arms_to_json as_

/-- `field_value_to_json` (src/src/syn_expr_json.rs, lines 247-253). -/
def field_value_to_json : FieldValue → Value
  | .mk attrs member expr => .obj [("attrs", attrs_to_json attrs),
      ("member", member_to_json member),
      ("expr", expr_to_json expr)]

/-- `iter().map(field_value_to_json).collect()`. -/
def field_values_to_json : List FieldValue → List Value
  | [] => []
  | f :: fs => field_value_to_json f :: field_values_to_json fs

end

/-- The variant tag of a node: the string emitted under the "kind" key. -/
def Expr.tag : Expr → String
  | .Array .. => "Array"
  | .Assign .. => "Assign"
  | .Async .. => "Async"
  | .Await .. => "Await"
  | .Binary .. => "Binary"
  | .Block .. => "Block"
  | .Break .. => "Break"
  | .Call .. => "Call"
  | .Cast .. => "Cast"
  | .Closure .. => "Closure"
  | .Const .. => "Const"
  | .Continue .. => "Continue"
  | .Field .. => "Field"
  | .ForLoop .. => "ForLoop"
  | .Group .. => "Group"
  | .If .. => "If"
  | .Index .. => "Index"
  | .Infer .. => "Infer"
  | .Let .. => "Let"
  | .Lit .. => "Lit"
  | .Loop .. => "Loop"
  | .Macro .. => "Macro"
  | .Match .. => "Match"
  | .MethodCall .. => "MethodCall"
  | .Paren .. => "Paren"
  | .Path .. => "Path"
  | .Range .. => "Range"
  | .RawAddr .. => "RawAddr"
  | .Reference .. => "Reference"
  | .Repeat .. => "Repeat"
  | .Return .. => "Return"
  | .Struct .. => "Struct"
  | .Try .. => "Try"
  | .TryBlock .. => "TryBlock"
  | .Tuple .. => "Tuple"
  | .Unary .. => "Unary"
  | .Unsafe .. => "Unsafe"
  | .Verbatim .. => "Verbatim"
  | .While .. => "While"
  | .Yield .. => "Yield"
  | .Unknown .. => "Unknown"

/-- The fixed key schema of each variant tag: the ordered key list of the
object the converter builds for a node with that tag. -/
def tagKeys : String → List String
  | "Array" => ["kind", "attrs", "elems"]
  | "Assign" => ["kind", "attrs", "left", "right"]
  | "Async" => ["kind", "attrs", "capture", "block"]
  | "Await" => ["kind", "attrs", "base"]
  | "Binary" => ["kind", "attrs", "left", "op", "right"]
  | "Block" => ["kind", "attrs", "label", "block"]
  | "Break" => ["kind", "attrs", "label", "expr"]
  | "Call" => ["kind", "attrs", "func", "args"]
  | "Cast" => ["kind", "attrs", "expr", "ty"]
  | "Closure" => ["kind", "attrs", "lifetimes", "constness", "movability",
      "asyncness", "capture", "inputs", "output", "body"]
  | "Const" => ["kind", "attrs", "block"]
  | "Continue" => ["kind", "attrs", "label"]
  | "Field" => ["kind", "attrs", "base", "member"]
  | "ForLoop" => ["kind", "attrs", "label", "pat", "expr", "body"]
  | "Group" => ["kind", "attrs", "expr"]
  | "If" => ["kind", "attrs", "cond", "then_branch", "else_branch"]
  | "Index" => ["kind", "attrs", "expr", "index"]
  | "Infer" => ["kind", "attrs"]
  | "Let" => ["kind", "attrs", "pat", "expr"]
  | "Lit" => ["kind", "attrs", "lit"]
  | "Loop" => ["kind", "attrs", "label", "body"]
  | "Macro" => ["kind", "attrs", "mac"]
  | "Match" => ["kind", "attrs", "expr", "arms"]
  | "MethodCall" => ["kind", "attrs", "receiver", "method", "turbofish", "args"]
  | "Paren" => ["kind", "attrs", "expr"]
  | "Path" => ["kind", "attrs", "qself", "path"]
  | "Range" => ["kind", "attrs", "start", "limits", "end"]
  | "RawAddr" => ["kind", "attrs", "mutability", "expr"]
  | "Reference" => ["kind", "attrs", "mutability", "expr"]
  | "Repeat" => ["kind", "attrs", "expr", "len"]
  | "Return" => ["kind", "attrs", "expr"]
  | "Struct" => ["kind", "attrs", "qself", "path", "fields", "dot2_token", "rest"]
  | "Try" => ["kind", "attrs", "expr"]
  | "TryBlock" => ["kind", "attrs", "block"]
  | "Tuple" => ["kind", "attrs", "elems"]
  | "Unary" => ["kind", "attrs", "op", "expr"]
  | "Unsafe" => ["kind", "attrs", "block"]
  | "Verbatim" => ["kind", "tokens"]
  | "While" => ["kind", "attrs", "label", "cond", "body"]
  | "Yield" => ["kind", "attrs", "expr"]
  | "Unknown" => ["kind", "tokens"]
  | _ => []

/-- The attribute list a node carries: every structured variant has one
(the `attrs` field of the corresponding `syn::Expr*` struct); `Verbatim`
and unknown future variants are bare token streams and have none. -/
def Expr.attrsOf : Expr → Option (List String)
  | .Array attrs .. => some attrs
  | .Assign attrs .. => some attrs
  | .Async attrs .. => some attrs
  | .Await attrs .. => some attrs
  | .Binary attrs .. => some attrs
  | .Block attrs .. => some attrs
  | .Break attrs .. => some attrs
  | .Call attrs .. => some attrs
  | .Cast attrs .. => some attrs
  | .Closure attrs .. => some attrs
  | .Const attrs .. => some attrs
  | .Continue attrs .. => some attrs
  | .Field attrs .. => some attrs
  | .ForLoop attrs .. => some attrs
  | .Group attrs .. => some attrs
  | .If attrs .. => some attrs
  | .Index attrs .. => some attrs
  | .Infer attrs => some attrs
  | .Let attrs .. => some attrs
  | .Lit attrs .. => some attrs
  | .Loop attrs .. => some attrs
  | .Macro attrs .. => some attrs
  | .Match attrs .. => some attrs
  | .MethodCall attrs .. => some attrs
  | .Paren attrs .. => some attrs
  | .Path attrs .. => some attrs
  | .Range attrs .. => some attrs
  | .RawAddr attrs .. => some attrs
  | .Reference attrs .. => some attrs
  | .Repeat attrs .. => some attrs
  | .Return attrs .. => some attrs
  | .Struct attrs .. => some attrs
  | .Try attrs .. => some attrs
  | .TryBlock attrs .. => some attrs
  | .Tuple attrs .. => some attrs
  | .Unary attrs .. => some attrs
  | .Unsafe attrs .. => some attrs
  | .Verbatim _ => none
  | .While attrs .. => some attrs
  | .Yield attrs .. => some attrs
  | .Unknown _ => none

/-- Outcome of one CLI invocation: exit code plus the lines printed to
standard output and standard error. -/
structure CliResult where
  exitCode : Nat
  stdoutLines : List String
  stderrLines : List String
deriving DecidableEq

/-- The usage message of src/src/bin/cli.rs (lines 18-25), printed to
standard error when the argument count is wrong.  The literal braces of the
third example are written as escape codes. -/
def usageLines (prog : String) : List String :=
  ["Usage: " ++ prog ++ " <expression>",
   "",
   "Parse a Rust expression and output structured JSON.",
   "",
   "Examples:",
   "  " ++ prog ++ " \"1 + 2 * 3\"",
   "  " ++ prog ++ " \"foo.bar(baz)\"",
   "  " ++ prog ++ " \"if x > 0 \x7b x \x7d else \x7b -x \x7d\""]

/-- `main` of src/src/bin/cli.rs (lines 14-47).  `args` is the full argument
vector including the program name (`env::args()` yields it first).  The
external parser and the pretty-printing encoder are collaborators, passed as
functions returning a diagnostic string on failure. -/
def cliMain (args : List String) (parse : String → Except String Expr)
    (enc : Value → Except String String) : CliResult :=
  if args.length ≠ 2 then
    ⟨1, [], usageLines (args.getD 0 "")⟩
  else
    match parse (args.getD 1 "") with
    | .ok expr =>
      match enc (expr_to_json expr) with
      | .ok output => ⟨0, [output], []⟩
      | .error e => ⟨1, [], ["Error serializing JSON: " ++ e]⟩
    | .error e => ⟨1, [], ["Parse error: " ++ e]⟩

/-! Helper lemmas. -/

/-- The explicit recursions over lists are the corresponding `List.map`. -/
theorem exprs_to_json_eq_map (es : List Expr) :
    exprs_to_json es = es.map expr_to_json := by
  induction es with
  | nil => rfl
  | cons e es ih => simp [exprs_to_json, ih]

theorem arms_to_json_eq_map (arms : List Arm) :
    arms_to_json arms = arms.map arm_to_json := by
  induction arms with
  | nil => rfl
  | cons a arms ih => simp [arms_to_json, ih]

theorem field_values_to_json_eq_map (fs : List FieldValue) :
    field_values_to_json fs = fs.map field_value_to_json := by
  induction fs with
  | nil => rfl
  | cons f fs ih => simp [field_values_to_json, ih]

/-- The key list of the object built for a node is a function of the
variant tag alone. -/
theorem objKeys_expr_to_json (e : Expr) :
    (expr_to_json e).objKeys = tagKeys e.tag := by
  cases e <;> rfl

/-! Claim theorems. -/

/-- C1 (counterexample): a Verbatim node whose token stream is empty is
converted to a fallback object whose tokens field is the empty string, so
the tokens text is not always non-empty as the claim states. -/
theorem C1_counterexample :
    (expr_to_json (Expr.Verbatim "")).lookup "tokens" = some (Value.str "")
      ∧ String.length "" = 0 :=
  ⟨rfl, rfl⟩

/-- C1 (amended): every expression node converts to an object (the
converter is total and never signals an error), and a Verbatim node or a
node of an unknown future variant yields exactly the fallback object
`\x7bkind, tokens\x7d` whose tokens field is the node's token text — which
is empty precisely when that token text is empty. -/
theorem C1_total_fallback :
    (∀ e : Expr, (expr_to_json e).isObj = true)
      ∧ (∀ ts : String, expr_to_json (Expr.Verbatim ts) =
          Value.obj [("kind", Value.str "Verbatim"), ("tokens", Value.str ts)])
      ∧ (∀ ts : String, expr_to_json (Expr.Unknown ts) =
          Value.obj [("kind", Value.str "Unknown"), ("tokens", Value.str ts)]) := by
  refine ⟨fun e => ?_, fun ts => rfl, fun ts => rfl⟩
  cases e <;> rfl

/-- C2 (counterexample): an integer literal written without a type suffix
is converted with its suffix key mapped to the empty string, not to null as
the claim states for absent optional inner values. -/
theorem C2_counterexample :
    (expr_to_json (Expr.Lit [] (Lit.Int "1" ""))).lookup "lit"
        = some (lit_to_json (Lit.Int "1" ""))
      ∧ (lit_to_json (Lit.Int "1" "")).lookup "suffix" = some (Value.str "")
      ∧ Value.str "" ≠ Value.null :=
  ⟨rfl, rfl, fun h => Value.noConfusion h⟩

/-- C2 (amended): two expression nodes of the same variant produce objects
with exactly the same key set; absent optional sub-values (else-branch,
label, expr, turbofish) appear as keys mapped to null rather than as
missing keys; an absent literal suffix, however, appears as the empty
string, not null. -/
theorem C2_key_sets_fixed :
    (∀ e₁ e₂ : Expr, e₁.tag = e₂.tag →
        (expr_to_json e₁).objKeys = (expr_to_json e₂).objKeys)
      ∧ (∀ attrs cond tb, (expr_to_json (Expr.If attrs cond tb none)).lookup
          "else_branch" = some Value.null)
      ∧ (∀ attrs, (expr_to_json (Expr.Break attrs none none)).lookup "label"
            = some Value.null
          ∧ (expr_to_json (Expr.Break attrs none none)).lookup "expr"
            = some Value.null)
      ∧ (∀ attrs r m args, (expr_to_json
          (Expr.MethodCall attrs r m none args)).lookup "turbofish"
            = some Value.null)
      ∧ (∀ digits, (lit_to_json (Lit.Int digits "")).lookup "suffix"
          = some (Value.str "")) := by
  refine ⟨fun e₁ e₂ h => ?_, fun _ _ _ => rfl, fun _ => ⟨rfl, rfl⟩,
    fun _ _ _ _ => rfl, fun _ => rfl⟩
  rw [objKeys_expr_to_json, objKeys_expr_to_json, h]

/-- C2 (witness): the key-set invariant applied to two concrete Break
nodes, one with label and value and one bare. -/
theorem C2_witness :
    (expr_to_json (Expr.Break [] none none)).objKeys
      = (expr_to_json (Expr.Break []
          (some ⟨"outer"⟩) (some (Expr.Lit [] (Lit.Int "42" ""))))).objKeys :=
  C2_key_sets_fixed.1 _ _ rfl

/-- C3: integer and float literals are emitted with their value field equal
to the literal node's stored base-10 digit text, passed through as text and
never reparsed through a numeric representation; in particular the source
literal 3.14 yields value "3.14". -/
theorem C3_numeric_literal_fidelity :
    (∀ digits suffix, lit_to_json (Lit.Int digits suffix) =
        Value.obj [("kind", Value.str "Int"), ("value", Value.str digits),
          ("suffix", Value.str suffix)])
      ∧ (∀ digits suffix, lit_to_json (Lit.Float digits suffix) =
          Value.obj [("kind", Value.str "Float"), ("value", Value.str digits),
            ("suffix", Value.str suffix)])
      ∧ (expr_to_json (Expr.Lit [] (Lit.Float "3.14" ""))).lookup "lit"
          = some (lit_to_json (Lit.Float "3.14" ""))
      ∧ (lit_to_json (Lit.Float "3.14" "")).lookup "value"
          = some (Value.str "3.14") :=
  ⟨fun _ _ => rfl, fun _ _ => rfl, rfl, rfl⟩

/-- C4: every binary operator of the closed sets (arithmetic, logical,
bitwise, comparison, compound-assignment) and every unary operator (deref,
not, neg) is emitted as exactly its documented symbol, and an operator
outside the closed sets is emitted as its verbatim source-token text
instead of raising an error. -/
theorem C4_operator_normalization :
    binop_to_json BinOp.Add = Value.str "+"
      ∧ binop_to_json BinOp.Sub = Value.str "-"
      ∧ binop_to_json BinOp.Mul = Value.str "*"
      ∧ binop_to_json BinOp.Div = Value.str "/"
      ∧ binop_to_json BinOp.Rem = Value.str "%"
      ∧ binop_to_json BinOp.And = Value.str "&&"
      ∧ binop_to_json BinOp.Or = Value.str "||"
      ∧ binop_to_json BinOp.BitXor = Value.str "^"
      ∧ binop_to_json BinOp.BitAnd = Value.str "&"
      ∧ binop_to_json BinOp.BitOr = Value.str "|"
      ∧ binop_to_json BinOp.Shl = Value.str "<<"
      ∧ binop_to_json BinOp.Shr = Value.str ">>"
      ∧ binop_to_json BinOp.Eq = Value.str "=="
      ∧ binop_to_json BinOp.Lt = Value.str "<"
      ∧ binop_to_json BinOp.Le = Value.str "<="
      ∧ binop_to_json BinOp.Ne = Value.str "!="
      ∧ binop_to_json BinOp.Ge = Value.str ">="
      ∧ binop_to_json BinOp.Gt = Value.str ">"
      ∧ binop_to_json BinOp.AddAssign = Value.str "+="
      ∧ binop_to_json BinOp.SubAssign = Value.str "-="
      ∧ binop_to_json BinOp.MulAssign = Value.str "*="
      ∧ binop_to_json BinOp.DivAssign = Value.str "/="
      ∧ binop_to_json BinOp.RemAssign = Value.str "%="
      ∧ binop_to_json BinOp.BitXorAssign = Value.str "^="
      ∧ binop_to_json BinOp.BitAndAssign = Value.str "&="
      ∧ binop_to_json BinOp.BitOrAssign = Value.str "|="
      ∧ binop_to_json BinOp.ShlAssign = Value.str "<<="
      ∧ binop_to_json BinOp.ShrAssign = Value.str ">>="
      ∧ (∀ tokens, binop_to_json (BinOp.Unknown tokens) = Value.str tokens)
      ∧ unop_to_json UnOp.Deref = Value.str "*"
      ∧ unop_to_json UnOp.Not = Value.str "!"
      ∧ unop_to_json UnOp.Neg = Value.str "-"
      ∧ (∀ tokens, unop_to_json (UnOp.Unknown tokens) = Value.str tokens) :=
  ⟨rfl, rfl, rfl, rfl, rfl, rfl, rfl, rfl, rfl, rfl, rfl, rfl, rfl, rfl, rfl,
   rfl, rfl, rfl, rfl, rfl, rfl, rfl, rfl, rfl, rfl, rfl, rfl, rfl,
   fun _ => rfl, rfl, rfl, rfl, fun _ => rfl⟩

/-- C5 (counterexample): a byte-string literal is emitted with its value
field as an array of numeric byte values, which is not a text (string)
form as the claim states. -/
theorem C5_counterexample :
    (lit_to_json (Lit.ByteStr [104, 105] "")).lookup "value"
        = some (Value.arr [Value.num 104, Value.num 105])
      ∧ Value.isStr (Value.arr [Value.num 104, Value.num 105]) = false :=
  ⟨rfl, rfl⟩

/-- C5 (amended): literal normalization follows the per-kind policy — a
string literal yields its decoded text plus suffix; a byte-string literal
yields its decoded byte content as an array of numeric byte values plus
suffix (not as a text form); a boolean literal yields a native JSON
boolean; a character literal yields a single-character string; an
unrecognized literal kind yields the opaque fallback object rather than an
error. -/
theorem C5_literal_normalization :
    (∀ v s, lit_to_json (Lit.Str v s) =
        Value.obj [("kind", Value.str "Str"), ("value", Value.str v),
          ("suffix", Value.str s)])
      ∧ (∀ bytes s, lit_to_json (Lit.ByteStr bytes s) =
          Value.obj [("kind", Value.str "ByteStr"),
            ("value", Value.arr (bytes.map Value.num)),
            ("suffix", Value.str s)])
      ∧ (∀ b, lit_to_json (Lit.Bool b) =
          Value.obj [("kind", Value.str "Bool"), ("value", Value.bool b)])
      ∧ (∀ c s, lit_to_json (Lit.Char c s) =
            Value.obj [("kind", Value.str "Char"),
              ("value", Value.str c.toString), ("suffix", Value.str s)]
          ∧ (Char.toString c).length = 1)
      ∧ (∀ tokens, lit_to_json (Lit.Unknown tokens) =
          Value.obj [("kind", Value.str "Unknown"),
            ("tokens", Value.str tokens)]) :=
  ⟨fun _ _ => rfl, fun _ _ => rfl, fun _ => rfl,
   fun _ _ => ⟨rfl, rfl⟩, fun _ => rfl⟩

/-- C6: collection order and length are preserved — the args array of a
call node, the fields array of a struct-literal node and the arms array of
a match node are the element-wise conversions of the source lists, in
source order and of the same length; concretely foo(1,2,3) yields an args
array of length 3 and Point with two fields yields a fields array of
length 2. -/
theorem C6_order_and_length :
    (∀ attrs f args, (expr_to_json (Expr.Call attrs f args)).lookup "args"
        = some (Value.arr (args.map expr_to_json)))
      ∧ (∀ args : List Expr, (args.map expr_to_json).length = args.length)
      ∧ (∀ attrs qs p fields d r,
          (expr_to_json (Expr.Struct attrs qs p fields d r)).lookup "fields"
            = some (Value.arr (fields.map field_value_to_json)))
      ∧ (∀ fields : List FieldValue,
          (fields.map field_value_to_json).length = fields.length)
      ∧ (∀ attrs scrut arms,
          (expr_to_json (Expr.Match attrs scrut arms)).lookup "arms"
            = some (Value.arr (arms.map arm_to_json)))
      ∧ (∀ arms : List Arm, (arms.map arm_to_json).length = arms.length)
      ∧ (expr_to_json (Expr.Call [] (Expr.Path [] none "foo")
            [Expr.Lit [] (Lit.Int "1" ""), Expr.Lit [] (Lit.Int "2" ""),
             Expr.Lit [] (Lit.Int "3" "")])).lookup "args"
          = some (Value.arr [expr_to_json (Expr.Lit [] (Lit.Int "1" "")),
              expr_to_json (Expr.Lit [] (Lit.Int "2" "")),
              expr_to_json (Expr.Lit [] (Lit.Int "3" ""))])
      ∧ (expr_to_json (Expr.Struct [] none "Point"
            [FieldValue.mk [] (Member.Named "x") (Expr.Lit [] (Lit.Int "1" "")),
             FieldValue.mk [] (Member.Named "y") (Expr.Lit [] (Lit.Int "2" ""))]
            false none)).lookup "fields"
          = some (Value.arr
              [field_value_to_json (FieldValue.mk [] (Member.Named "x")
                 (Expr.Lit [] (Lit.Int "1" ""))),
               field_value_to_json (FieldValue.mk [] (Member.Named "y")
                 (Expr.Lit [] (Lit.Int "2" "")))]) := by
  refine ⟨fun attrs f args => ?_, fun args => List.length_map _ _,
    fun attrs qs p fields d r => ?_, fun fields => List.length_map _ _,
    fun attrs scrut arms => ?_, fun arms => List.length_map _ _, rfl, rfl⟩
  · show some (Value.arr (exprs_to_json args)) = _
    rw [exprs_to_json_eq_map]
  · show some (Value.arr (field_values_to_json fields)) = _
    rw [field_values_to_json_eq_map]
  · show some (Value.arr (arms_to_json arms)) = _
    rw [arms_to_json_eq_map]

/-- C7 (counterexample): the object for a bare continue carries no expr key
at all, and the object for a bare return carries no label key, so those two
optional fields are not present on every one of Break, Continue, Return
and Yield as the claim states. -/
theorem C7_counterexample :
    (expr_to_json (Expr.Continue [] none)).lookup "expr" = none
      ∧ (expr_to_json (Expr.Return [] none)).lookup "label" = none :=
  ⟨rfl, rfl⟩

/-- C7 (amended): each of Break, Continue, Return and Yield carries its
matching tag; Break carries both optional fields label and expr, Continue
carries only label, Return and Yield carry only expr; present and absent
values are reflected precisely — a bare break yields expr null while break
42 yields a non-null Lit object as expr. -/
theorem C7_optional_fields :
    (∀ attrs lab oe, expr_to_json (Expr.Break attrs lab oe) =
        Value.obj [("kind", Value.str "Break"),
          ("attrs", attrs_to_json attrs),
          ("label", opt_lifetime_to_json lab),
          ("expr", opt_expr_to_json oe)])
      ∧ (expr_to_json (Expr.Break [] none none)).lookup "expr"
          = some Value.null
      ∧ (expr_to_json (Expr.Break [] none
            (some (Expr.Lit [] (Lit.Int "42" ""))))).lookup "expr"
          = some (Value.obj [("kind", Value.str "Lit"),
              ("attrs", Value.arr []),
              ("lit", lit_to_json (Lit.Int "42" ""))])
      ∧ (∀ attrs lab, (expr_to_json (Expr.Continue attrs lab)).objKeys
          = ["kind", "attrs", "label"])
      ∧ (∀ attrs oe, (expr_to_json (Expr.Return attrs oe)).objKeys
          = ["kind", "attrs", "expr"])
      ∧ (∀ attrs oe, (expr_to_json (Expr.Yield attrs oe)).objKeys
          = ["kind", "attrs", "expr"])
      ∧ (expr_to_json (Expr.Return [] none)).lookup "expr" = some Value.null
      ∧ (expr_to_json (Expr.Yield [] none)).lookup "expr" = some Value.null :=
  ⟨fun _ _ _ => rfl, rfl, rfl, fun _ _ => rfl, fun _ _ => rfl,
   fun _ _ => rfl, rfl, rfl⟩

/-- C8 (counterexample): the fallback object for a Verbatim node carries no
attrs key, so not every variant's object contains one as the claim
states. -/
theorem C8_counterexample :
    (expr_to_json (Expr.Verbatim "x")).lookup "attrs" = none :=
  rfl

/-- C8 (amended): every structured variant's object carries an attrs key
holding the array (possibly empty) of the node's opaque annotation texts;
only the bare-token fallback objects (Verbatim and unknown future
variants), whose nodes carry no annotations at all, lack the key. -/
theorem C8_attrs_key :
    (∀ (e : Expr) (attrs : List String), e.attrsOf = some attrs →
        (expr_to_json e).lookup "attrs" = some (attrs_to_json attrs))
      ∧ (∀ ts, (expr_to_json (Expr.Verbatim ts)).lookup "attrs" = none)
      ∧ (∀ ts, (expr_to_json (Expr.Unknown ts)).lookup "attrs" = none)
      ∧ (∀ attrs : List String, attrs_to_json attrs
          = Value.arr (attrs.map Value.str)) := by
  refine ⟨fun e attrs h => ?_, fun _ => rfl, fun _ => rfl, fun _ => rfl⟩
  cases e <;> simp [Expr.attrsOf] at h <;> subst h <;> rfl

/-- C8 (witness): the attrs-key property applied to a concrete node with
one annotation. -/
theorem C8_witness :
    (expr_to_json (Expr.Infer ["#[cfg(test)]"])).lookup "attrs"
      = some (attrs_to_json ["#[cfg(test)]"]) :=
  C8_attrs_key.1 (Expr.Infer ["#[cfg(test)]"]) ["#[cfg(test)]"] rfl

/-- C9: the CLI wrapper, given exactly one positional argument (an argument
vector of length two, program name included), prints the encoder output to
standard output with exit code 0 on success; prints a parse diagnostic to
standard error with exit code 1 on parse failure; prints an encoding
diagnostic to standard error with exit code 1 on encoding failure; and for
any other argument count prints a usage message including example
invocations to standard error with exit code 1. -/
theorem C9_cli_behavior (args : List String)
    (parse : String → Except String Expr)
    (enc : Value → Except String String) :
    (args.length = 2 → ∀ e out, parse (args.getD 1 "") = Except.ok e →
        enc (expr_to_json e) = Except.ok out →
        cliMain args parse enc = ⟨0, [out], []⟩)
      ∧ (args.length = 2 → ∀ msg, parse (args.getD 1 "") = Except.error msg →
          cliMain args parse enc = ⟨1, [], ["Parse error: " ++ msg]⟩)
      ∧ (args.length = 2 → ∀ e msg, parse (args.getD 1 "") = Except.ok e →
          enc (expr_to_json e) = Except.error msg →
          cliMain args parse enc
            = ⟨1, [], ["Error serializing JSON: " ++ msg]⟩)
      ∧ (args.length ≠ 2 →
          cliMain args parse enc = ⟨1, [], usageLines (args.getD 0 "")⟩
            ∧ "Examples:" ∈ usageLines (args.getD 0 "")) := by
  refine ⟨fun h e out hp he => ?_, fun h msg hp => ?_,
    fun h e msg hp he => ?_, fun h => ⟨?_, ?_⟩⟩
  · simp only [cliMain]
    rw [if_neg (not_ne_iff.mpr h), hp]
    simp only [he]
  · simp only [cliMain]
    rw [if_neg (not_ne_iff.mpr h), hp]
  · simp only [cliMain]
    rw [if_neg (not_ne_iff.mpr h), hp]
    simp only [he]
  · simp only [cliMain]
    rw [if_pos h]
  · simp [usageLines]

/-- C9 (witness): the success branch applied to a concrete argument vector
and stub collaborators. -/
theorem C9_witness :
    cliMain ["syn-expr-json", "42"]
        (fun _ => Except.ok (Expr.Lit [] (Lit.Int "42" "")))
        (fun _ => Except.ok "output") = ⟨0, ["output"], []⟩ :=
  (C9_cli_behavior ["syn-expr-json", "42"]
      (fun _ => Except.ok (Expr.Lit [] (Lit.Int "42" "")))
      (fun _ => Except.ok "output")).1 rfl
    (Expr.Lit [] (Lit.Int "42" "")) "output" rfl rfl

/-- C10: for every labeled Block, Loop, While and ForLoop node and every
Break or Continue carrying a label, the emitted label value is the bare
label identifier text — the label's source token text minus its leading
apostrophe (character 39); concretely a loop labeled with identifier
"outer" emits the string "outer". -/
theorem C10_label_bare_ident :
    (∀ l : Lifetime,
        (lifetime_tokens l).toList = Char.ofNat 39 :: l.ident.toList)
      ∧ (∀ attrs block l, (expr_to_json
          (Expr.Block attrs (some ⟨l⟩) block)).lookup "label"
            = some (Value.str l.ident))
      ∧ (∀ attrs body l, (expr_to_json
          (Expr.Loop attrs (some ⟨l⟩) body)).lookup "label"
            = some (Value.str l.ident))
      ∧ (∀ attrs cond body l, (expr_to_json
          (Expr.While attrs (some ⟨l⟩) cond body)).lookup "label"
            = some (Value.str l.ident))
      ∧ (∀ attrs pat e body l, (expr_to_json
          (Expr.ForLoop attrs (some ⟨l⟩) pat e body)).lookup "label"
            = some (Value.str l.ident))
      ∧ (∀ attrs oe l, (expr_to_json
          (Expr.Break attrs (some l) oe)).lookup "label"
            = some (Value.str l.ident))
      ∧ (∀ attrs l, (expr_to_json
          (Expr.Continue attrs (some l))).lookup "label"
            = some (Value.str l.ident))
      ∧ (expr_to_json (Expr.Loop [] (some ⟨⟨"outer"⟩⟩) "body")).lookup
          "label" = some (Value.str "outer") := by
  refine ⟨fun l => ?_, fun _ _ _ => rfl, fun _ _ _ => rfl,
    fun _ _ _ _ => rfl, fun _ _ _ _ _ => rfl, fun _ _ _ => rfl,
    fun _ _ => rfl, rfl⟩
  cases l with
  | mk id => cases id with
    | mk data => rfl

end SynExprJson
